import Mathlib

/-!
Shallow embedding of the agent-contagion-networks core
(src/src/agents/base_agent.py, rational_agent.py, agent_factory.py).

Real numbers are modelled by the rationals; Python dicts by association
lists with first-match lookup; calls to the ambient random generator by
explicit parameters (the uniform draw of a sharing decision, the sampled
parameters of a population, the permutation produced by a shuffle).
-/

/-- Embedding of the Information dataclass of base_agent.py. -/
structure Information where
  topic : String
  value : ℚ
  confidence : ℚ
  source_id : String
  timestamp : ℤ
deriving Repr, DecidableEq

/-- Lookup with default, embedding Python dict.get(k, default). -/
def dictGet (d : List (String × ℚ)) (k : String) (default : ℚ) : ℚ :=
  match d.lookup k with
  | some v => v
  | none => default

/-- Key update, embedding Python d[k] = v: the new binding replaces any old one. -/
def dictSet (d : List (String × ℚ)) (k : String) (v : ℚ) : List (String × ℚ) :=
  (k, v) :: d.filter (fun p => p.1 != k)

/-- Embedding of PsychologicalAgent of rational_agent.py together with the
state inherited from BaseAgent (beliefs, connections, information_history). -/
structure PsychologicalAgent where
  agent_id : String
  base_trust_level : ℚ
  loss_sensitivity : ℚ
  confirmation_bias : ℚ
  social_proof_weight : ℚ
  emotional_state : ℚ
  default_trust : ℚ
  beliefs : List (String × ℚ)
  connections : List (String × ℚ)
  information_history : List Information
deriving Repr

/-- Embedding of the PsychologicalAgent constructor: BaseAgent.__init__
gives empty beliefs, connections and history; the psychological parameters
are set as in rational_agent.py lines 8-21. -/
def PsychologicalAgent.create (agent_id : String) (trust_level : ℚ)
    (loss_sensitivity : ℚ) : PsychologicalAgent :=
  { agent_id := agent_id
    base_trust_level := trust_level
    loss_sensitivity := loss_sensitivity
    confirmation_bias := (3 : ℚ)/10
    social_proof_weight := (4 : ℚ)/10
    emotional_state := 0
    default_trust := trust_level
    beliefs := []
    connections := []
    information_history := [] }

/-- Step 1 of process_information: loss aversion, negative values scaled by
loss_sensitivity (rational_agent.py lines 26-30). -/
def psychological_impact (a : PsychologicalAgent) (info : Information) : ℚ :=
  if info.value < 0 then info.value * a.loss_sensitivity else info.value

/-- Step 2 of process_information: weight by source trust (line 33). -/
def trusted_impact (a : PsychologicalAgent) (info : Information)
    (source_trust : ℚ) : ℚ :=
  psychological_impact a info * source_trust

/-- Step 3 of process_information: confirmation bias bonus or penalty
(rational_agent.py lines 36-42). -/
def confirmation_bonus (a : PsychologicalAgent) (info : Information) : ℚ :=
  let current_belief := dictGet a.beliefs info.topic 0
  if (current_belief > 0 ∧ info.value > 0) ∨ (current_belief < 0 ∧ info.value < 0) then
    a.confirmation_bias
  else
    -a.confirmation_bias

/-- final_impact of process_information (line 44). -/
def final_impact (a : PsychologicalAgent) (info : Information)
    (source_trust : ℚ) : ℚ :=
  trusted_impact a info source_trust + confirmation_bonus a info

/-- Embedding of PsychologicalAgent.process_information (lines 23-57):
returns the updated agent and the returned belief-change magnitude. -/
def PsychologicalAgent.process_information (a : PsychologicalAgent)
    (info : Information) (source_trust : ℚ) : PsychologicalAgent × ℚ :=
  let old_belief := dictGet a.beliefs info.topic 0
  let learning_rate : ℚ := (3 : ℚ)/10
  let new_belief := old_belief + learning_rate * final_impact a info source_trust
  let clamped_belief := max (-1) (min 1 new_belief)
  ({ a with
      beliefs := dictSet a.beliefs info.topic clamped_belief
      information_history := a.information_history ++ [info] },
   |clamped_belief - old_belief|)

/-- share_probability computed inside decide_to_share (lines 67-76). -/
def share_probability (a : PsychologicalAgent) (info : Information) : ℚ :=
  let belief_strength := |dictGet a.beliefs info.topic 0|
  let source_trust := dictGet a.connections info.source_id a.default_trust
  let urgency_factor := if info.value < 0 then a.loss_sensitivity else 1
  (belief_strength * source_trust * urgency_factor) / 3

/-- Embedding of PsychologicalAgent.decide_to_share (lines 59-78), with the
uniform random draw passed explicitly; the agent component of the result is
the (unmutated) state of the agent after the call. -/
def PsychologicalAgent.decide_to_share (a : PsychologicalAgent)
    (info : Information) (draw : ℚ) : PsychologicalAgent × Bool :=
  (a, decide (draw < share_probability a info))

/-- Embedding of PsychologicalAgent.update_trust (lines 80-98). -/
def PsychologicalAgent.update_trust (a : PsychologicalAgent)
    (other_agent_id : String) (interaction_outcome : ℚ) : PsychologicalAgent :=
  let connections1 :=
    if a.connections.lookup other_agent_id = none then
      dictSet a.connections other_agent_id a.default_trust
    else
      a.connections
  let current_trust := dictGet connections1 other_agent_id a.default_trust
  let trust_change :=
    if interaction_outcome > 0 then
      (1 : ℚ)/10 * interaction_outcome
    else
      a.loss_sensitivity * interaction_outcome * ((2 : ℚ)/10)
  let new_trust := current_trust + trust_change
  let clamped_trust := max 0 (min 1 new_trust)
  { a with connections := dictSet connections1 other_agent_id clamped_trust }

/-- A sequence element for the evolving-state claims: one call to
process_information or to update_trust with arbitrary arguments. -/
inductive AgentOp where
  | processInfo (info : Information) (source_trust : ℚ)
  | updateTrust (other : String) (outcome : ℚ)

/-- Apply one call to the agent, keeping only the state. -/
def applyOp (a : PsychologicalAgent) : AgentOp → PsychologicalAgent
  | .processInfo info st => (a.process_information info st).1
  | .updateTrust o oc => a.update_trust o oc

/-- Apply a sequence of calls left to right. -/
def applyOps (a : PsychologicalAgent) : List AgentOp → PsychologicalAgent
  | [] => a
  | op :: ops => applyOps (applyOp a op) ops

/-- Decidable statement that every stored belief value lies in the
interval from -1 to 1. -/
def beliefsInRange (a : PsychologicalAgent) : Bool :=
  a.beliefs.all (fun p => decide (-1 ≤ p.2) && decide (p.2 ≤ 1))

/-- Decidable statement that every stored connection trust value lies in
the interval from 0 to 1. -/
def connectionsInRange (a : PsychologicalAgent) : Bool :=
  a.connections.all (fun p => decide (0 ≤ p.2) && decide (p.2 ≤ 1))

/-- Modelled from the spec: RationalAgent's implementation is absent from
src (section 4.4 specifies it abstractly; agent_factory.py only constructs
it from an agent_id), so only its constructor shape is embedded. -/
structure RationalAgent where
  agent_id : String
deriving Repr

/-- A member of a mixed population is either kind of agent. -/
inductive Agent where
  | psychological (a : PsychologicalAgent)
  | rational (a : RationalAgent)

/-- Kind test used to count psychological agents in a population. -/
def Agent.isPsychological : Agent → Bool
  | .psychological _ => true
  | .rational _ => false

/-- Kind test used to count rational agents in a population. -/
def Agent.isRational : Agent → Bool
  | .psychological _ => false
  | .rational _ => true

/-- Embedding of Python int() applied to a rational: truncation toward zero. -/
def pyInt (q : ℚ) : ℤ :=
  if q < 0 then ⌈q⌉ else ⌊q⌋

/-- Embedding of AgentFactory.create_psychological_population
(agent_factory.py lines 7-25); the random.uniform samples for trust and
loss sensitivity are supplied by the explicit stream params. -/
def create_psychological_population (size : ℕ) (params : ℕ → ℚ × ℚ) :
    List PsychologicalAgent :=
  (List.range size).map (fun i =>
    PsychologicalAgent.create ("psych_agent_" ++ toString i) (params i).1 (params i).2)

/-- Embedding of AgentFactory.create_rational_population (lines 27-36). -/
def create_rational_population (size : ℕ) : List RationalAgent :=
  (List.range size).map (fun i => RationalAgent.mk ("rational_agent_" ++ toString i))

/-- Embedding of AgentFactory.create_mixed_population (lines 38-52) up to
the final random.shuffle: the concatenated population before shuffling.
Claims about the shuffled result quantify over permutations of this list. -/
def create_mixed_population (size : ℕ) (r : ℚ) (params : ℕ → ℚ × ℚ) :
    List Agent :=
  let psych_count := (pyInt ((size : ℚ) * r)).toNat
  let rational_count := size - psych_count
  (create_psychological_population psych_count params).map Agent.psychological ++
    (create_rational_population rational_count).map Agent.rational

/-- Membership in a dict after an update: the element is the new binding, or
an old binding whose key differs from the updated one. -/
lemma mem_dictSet {d : List (String × ℚ)} {k : String} {v : ℚ} {p : String × ℚ}
    (hp : p ∈ dictSet d k v) : p = (k, v) ∨ (p ∈ d ∧ p.1 ≠ k) := by
  simp only [dictSet, List.mem_cons, List.mem_filter, bne_iff_ne, ne_eq] at hp
  exact hp

/-- Looking up the updated key finds the new value. -/
lemma lookup_dictSet_self (d : List (String × ℚ)) (k : String) (v : ℚ) :
    (dictSet d k v).lookup k = some v := by
  simp [dictSet, List.lookup]

/-- Filtering out a key the lookup key differs from does not change the
lookup result. -/
lemma lookup_filter_ne (d : List (String × ℚ)) (k k' : String) (h : k' ≠ k) :
    (d.filter (fun p => p.1 != k)).lookup k' = d.lookup k' := by
  induction d with
  | nil => simp
  | cons q t ih =>
    obtain ⟨q1, q2⟩ := q
    by_cases hq : q1 = k
    · subst hq
      have h1 : (k' == q1) = false := beq_eq_false_iff_ne.mpr h
      simp [List.filter_cons, List.lookup, h1, ih]
    · have h2 : ((q1, q2).1 != k) = true := by simp [hq]
      cases hkq : k' == q1 <;>
        simp [List.filter_cons, List.lookup, h2, hkq, ih]

/-- Looking up a different key after an update finds the old value. -/
lemma lookup_dictSet_ne (d : List (String × ℚ)) (k : String) (v : ℚ)
    (k' : String) (h : k' ≠ k) :
    (dictSet d k v).lookup k' = d.lookup k' := by
  simp only [dictSet, List.lookup]
  rw [show (k' == k) = false by simp [h]]
  simp only [Bool.false_eq_true, if_false]
  exact lookup_filter_ne d k k' h

/-- The clamp in process_information keeps the stored belief at least -1,
and at most 1; the clamp in update_trust keeps the stored trust in 0..1. -/
lemma clamp_belief_bounds (x : ℚ) :
    -1 ≤ max (-1) (min 1 x) ∧ max (-1) (min 1 x) ≤ 1 :=
  ⟨le_max_left _ _, max_le (by norm_num) (min_le_left _ _)⟩

/-- Bounds of the trust clamp. -/
lemma clamp_trust_bounds (x : ℚ) :
    0 ≤ max 0 (min 1 x) ∧ max 0 (min 1 x) ≤ 1 :=
  ⟨le_max_left _ _, max_le (by norm_num) (min_le_left _ _)⟩

/-- One call to process_information or update_trust preserves both range
invariants: the only written values are clamped, all others are kept. -/
lemma inv_applyOp (a : PsychologicalAgent) (op : AgentOp)
    (hb : beliefsInRange a = true) (hc : connectionsInRange a = true) :
    beliefsInRange (applyOp a op) = true ∧ connectionsInRange (applyOp a op) = true := by
  simp only [beliefsInRange, connectionsInRange, List.all_eq_true, Bool.and_eq_true,
    decide_eq_true_eq] at hb hc ⊢
  cases op with
  | processInfo info st =>
    simp only [applyOp, PsychologicalAgent.process_information]
    refine ⟨?_, hc⟩
    intro p hp
    rcases mem_dictSet hp with rfl | ⟨hpd, _⟩
    · exact clamp_belief_bounds _
    · exact hb p hpd
  | updateTrust o oc =>
    simp only [applyOp, PsychologicalAgent.update_trust]
    refine ⟨hb, ?_⟩
    intro p hp
    rcases mem_dictSet hp with rfl | ⟨hp1, hpne⟩
    · exact clamp_trust_bounds _
    · by_cases h0 : a.connections.lookup o = none
      · simp only [h0, if_true] at hp1
        rcases mem_dictSet hp1 with rfl | ⟨hp2, _⟩
        · exact absurd rfl hpne
        · exact hc p hp2
      · simp only [h0, if_false] at hp1
        exact hc p hp1

/-- The range invariants are preserved by any sequence of calls. -/
lemma inv_applyOps (ops : List AgentOp) (a : PsychologicalAgent)
    (hb : beliefsInRange a = true) (hc : connectionsInRange a = true) :
    beliefsInRange (applyOps a ops) = true ∧ connectionsInRange (applyOps a ops) = true := by
  induction ops generalizing a with
  | nil => exact ⟨hb, hc⟩
  | cons op ops ih =>
    obtain ⟨hb1, hc1⟩ := inv_applyOp a op hb hc
    exact ih (applyOp a op) hb1 hc1

/-- Freshly constructed agent of the end-to-end scenario. -/
def agentC1 : PsychologicalAgent :=
  PsychologicalAgent.create "agent_A" ((3 : ℚ)/5) ((3 : ℚ)/2)

/-- Information of the end-to-end scenario. -/
def infoC1 : Information :=
  ⟨"economy", -((4 : ℚ)/5), (9 : ℚ)/10, "agent_X", 0⟩

/-- C1: on a fresh PsychologicalAgent with trust_level 0.6 and
loss_sensitivity 1.5, process_information of Information("economy", -0.8,
0.9, "agent_X", 0) with source_trust 0.6 computes psychological_impact
-1.2, trusted_impact -0.72, confirmation bonus -0.3, final_impact -1.02,
stores belief -0.306 for "economy" and returns 0.306. -/
theorem C1_process_information_end_to_end :
    psychological_impact agentC1 infoC1 = -((6 : ℚ)/5) ∧
    trusted_impact agentC1 infoC1 ((3 : ℚ)/5) = -((18 : ℚ)/25) ∧
    confirmation_bonus agentC1 infoC1 = -((3 : ℚ)/10) ∧
    final_impact agentC1 infoC1 ((3 : ℚ)/5) = -((51 : ℚ)/50) ∧
    (agentC1.process_information infoC1 ((3 : ℚ)/5)).1.beliefs.lookup "economy"
      = some (-((153 : ℚ)/500)) ∧
    (agentC1.process_information infoC1 ((3 : ℚ)/5)).2 = (153 : ℚ)/500 := by
  refine ⟨?_, ?_, ?_, ?_, ?_, ?_⟩ <;>
    norm_num [agentC1, infoC1, PsychologicalAgent.process_information, final_impact,
      trusted_impact, psychological_impact, confirmation_bonus,
      PsychologicalAgent.create, dictGet, dictSet, max_def, min_def]

/-- C2: along any sequence of process_information and update_trust calls
with arbitrary rational arguments, starting from a constructed agent whose
trust_level lies in 0..1, every stored belief lies in -1..1 and every
stored connection trust lies in 0..1. -/
theorem C2_range_invariants (aid : String) (tl ls : ℚ)
    (h0 : 0 ≤ tl) (h1 : tl ≤ 1) (ops : List AgentOp) :
    beliefsInRange (applyOps (PsychologicalAgent.create aid tl ls) ops) = true ∧
    connectionsInRange (applyOps (PsychologicalAgent.create aid tl ls) ops) = true :=
  inv_applyOps ops _ (by simp [beliefsInRange, PsychologicalAgent.create])
    (by simp [connectionsInRange, PsychologicalAgent.create])

/-- Witness for C2 at a concrete agent and concrete two-call sequence. -/
theorem C2_range_invariants_witness :
    beliefsInRange (applyOps (PsychologicalAgent.create "A" ((3 : ℚ)/5) ((3 : ℚ)/2))
      [AgentOp.processInfo infoC1 ((3 : ℚ)/5),
       AgentOp.updateTrust "agent_X" (-(2 : ℚ))]) = true ∧
    connectionsInRange (applyOps (PsychologicalAgent.create "A" ((3 : ℚ)/5) ((3 : ℚ)/2))
      [AgentOp.processInfo infoC1 ((3 : ℚ)/5),
       AgentOp.updateTrust "agent_X" (-(2 : ℚ))]) = true :=
  C2_range_invariants "A" ((3 : ℚ)/5) ((3 : ℚ)/2) (by norm_num) (by norm_num)
    [AgentOp.processInfo infoC1 ((3 : ℚ)/5),
     AgentOp.updateTrust "agent_X" (-(2 : ℚ))]

/-- C3: with stored belief 0.4 and incoming value 0.2 the confirmation
bonus is +0.3; with stored belief 0.0 (or topic absent) and incoming value
0.2 it is -0.3; and a zero current belief always takes the penalty branch. -/
theorem C3_confirmation_bonus_branches (a1 a2 : PsychologicalAgent)
    (i1 i2 : Information)
    (hb1 : dictGet a1.beliefs i1.topic 0 = (2 : ℚ)/5) (hv1 : i1.value = (1 : ℚ)/5)
    (hcb1 : a1.confirmation_bias = (3 : ℚ)/10)
    (hb2 : dictGet a2.beliefs i2.topic 0 = 0) (hv2 : i2.value = (1 : ℚ)/5)
    (hcb2 : a2.confirmation_bias = (3 : ℚ)/10) :
    confirmation_bonus a1 i1 = (3 : ℚ)/10 ∧
    confirmation_bonus a2 i2 = -((3 : ℚ)/10) ∧
    (∀ a : PsychologicalAgent, ∀ info : Information,
      dictGet a.beliefs info.topic 0 = 0 →
      confirmation_bonus a info = -a.confirmation_bias) := by
  refine ⟨?_, ?_, ?_⟩
  · simp only [confirmation_bonus, hb1, hv1, hcb1]
    norm_num
  · simp only [confirmation_bonus, hb2, hv2, hcb2]
    norm_num
  · intro a info hb
    simp only [confirmation_bonus, hb]
    norm_num

/-- Witness for C3 at a concrete agent holding belief 0.4 on "t" and a
concrete fresh agent. -/
theorem C3_confirmation_bonus_branches_witness :
    confirmation_bonus
      { PsychologicalAgent.create "B" ((3 : ℚ)/5) ((3 : ℚ)/2) with
          beliefs := [("t", (2 : ℚ)/5)] }
      ⟨"t", (1 : ℚ)/5, 1, "s", 0⟩ = (3 : ℚ)/10 ∧
    confirmation_bonus (PsychologicalAgent.create "C" ((3 : ℚ)/5) ((3 : ℚ)/2))
      ⟨"t", (1 : ℚ)/5, 1, "s", 0⟩ = -((3 : ℚ)/10) ∧
    (∀ a : PsychologicalAgent, ∀ info : Information,
      dictGet a.beliefs info.topic 0 = 0 →
      confirmation_bonus a info = -a.confirmation_bias) :=
  C3_confirmation_bonus_branches
    { PsychologicalAgent.create "B" ((3 : ℚ)/5) ((3 : ℚ)/2) with
        beliefs := [("t", (2 : ℚ)/5)] }
    (PsychologicalAgent.create "C" ((3 : ℚ)/5) ((3 : ℚ)/2))
    ⟨"t", (1 : ℚ)/5, 1, "s", 0⟩ ⟨"t", (1 : ℚ)/5, 1, "s", 0⟩
    (by norm_num [dictGet, PsychologicalAgent.create])
    rfl rfl
    (by norm_num [dictGet, PsychologicalAgent.create])
    rfl rfl

/-- C4: with loss_sensitivity 2, the psychological impact of value -0.5 is
value times loss_sensitivity and has strictly larger absolute value than
the (unscaled) psychological impact of value +0.5. -/
theorem C4_loss_aversion_magnitude (a : PsychologicalAgent) (i1 i2 : Information)
    (hls : a.loss_sensitivity = 2)
    (hv1 : i1.value = -((1 : ℚ)/2)) (hv2 : i2.value = (1 : ℚ)/2) :
    psychological_impact a i1 = i1.value * a.loss_sensitivity ∧
    psychological_impact a i2 = i2.value ∧
    |psychological_impact a i1| > |psychological_impact a i2| := by
  refine ⟨?_, ?_, ?_⟩ <;>
    simp only [psychological_impact, hls, hv1, hv2] <;> norm_num [abs_of_nonneg]

/-- Witness for C4 at a concrete agent with loss_sensitivity 2. -/
theorem C4_loss_aversion_magnitude_witness :
    psychological_impact (PsychologicalAgent.create "D" ((3 : ℚ)/5) 2)
        ⟨"t", -((1 : ℚ)/2), 1, "s", 0⟩
      = (⟨"t", -((1 : ℚ)/2), 1, "s", 0⟩ : Information).value
          * (PsychologicalAgent.create "D" ((3 : ℚ)/5) 2).loss_sensitivity ∧
    psychological_impact (PsychologicalAgent.create "D" ((3 : ℚ)/5) 2)
        ⟨"t", (1 : ℚ)/2, 1, "s", 0⟩
      = (⟨"t", (1 : ℚ)/2, 1, "s", 0⟩ : Information).value ∧
    |psychological_impact (PsychologicalAgent.create "D" ((3 : ℚ)/5) 2)
        ⟨"t", -((1 : ℚ)/2), 1, "s", 0⟩|
      > |psychological_impact (PsychologicalAgent.create "D" ((3 : ℚ)/5) 2)
        ⟨"t", (1 : ℚ)/2, 1, "s", 0⟩| :=
  C4_loss_aversion_magnitude (PsychologicalAgent.create "D" ((3 : ℚ)/5) 2)
    ⟨"t", -((1 : ℚ)/2), 1, "s", 0⟩ ⟨"t", (1 : ℚ)/2, 1, "s", 0⟩ rfl rfl rfl

/-- C6: decide_to_share returns the agent state unchanged: beliefs,
connections, history and all psychological parameters are untouched. -/
theorem C6_decide_to_share_no_mutation (a : PsychologicalAgent)
    (info : Information) (draw : ℚ) :
    (a.decide_to_share info draw).1 = a := rfl

/-- Agent used in the C5 witness: full belief on "t", full trust in "s",
loss sensitivity 3, so the sharing probability reaches 1. -/
def agentC5 : PsychologicalAgent :=
  { PsychologicalAgent.create "E" 1 3 with
      beliefs := [("t", (1 : ℚ))]
      connections := [("s", (1 : ℚ))] }

/-- Information used in the C5 witness: negative news from "s" on "t". -/
def infoC5 : Information := ⟨"t", -1, 1, "s", 0⟩

/-- C5: decide_to_share is true exactly when the uniform draw is strictly
below the unclamped probability (belief strength times source trust times
urgency factor) / 3; when that probability reaches 1 the decision is true
for every draw in 0..1. -/
theorem C5_decide_to_share_formula (a : PsychologicalAgent)
    (info : Information) (draw : ℚ) :
    ((a.decide_to_share info draw).2 = true ↔
      draw < (|dictGet a.beliefs info.topic 0| *
              dictGet a.connections info.source_id a.default_trust *
              (if info.value < 0 then a.loss_sensitivity else 1)) / 3) ∧
    (1 ≤ (|dictGet a.beliefs info.topic 0| *
          dictGet a.connections info.source_id a.default_trust *
          (if info.value < 0 then a.loss_sensitivity else 1)) / 3 →
      0 ≤ draw → draw < 1 → (a.decide_to_share info draw).2 = true) := by
  constructor
  · simp [PsychologicalAgent.decide_to_share, share_probability]
  · intro h1 h2 h3
    simp only [PsychologicalAgent.decide_to_share, share_probability,
      decide_eq_true_eq]
    exact lt_of_lt_of_le h3 h1

/-- Witness for C5: with sharing probability 1 the draw 1/2 yields true. -/
theorem C5_decide_to_share_formula_witness :
    (agentC5.decide_to_share infoC5 ((1 : ℚ)/2)).2 = true :=
  (C5_decide_to_share_formula agentC5 infoC5 ((1 : ℚ)/2)).2
    (by norm_num [agentC5, infoC5, dictGet, List.lookup,
      PsychologicalAgent.create])
    (by norm_num) (by norm_num)

/-- The trust value read inside update_trust after the default entry is
ensured equals the dict.get of the original connections with the default. -/
lemma update_trust_current (a : PsychologicalAgent) (o : String) :
    dictGet (if a.connections.lookup o = none
             then dictSet a.connections o a.default_trust
             else a.connections) o a.default_trust
      = dictGet a.connections o a.default_trust := by
  by_cases h : a.connections.lookup o = none
  · simp [h, dictGet, lookup_dictSet_self]
  · simp [h]

/-- C7: update_trust stores, under the other agent's key, the clamp to
0..1 of the previous trust (the default if the entry was absent) plus the
branching trust change (0.1 times the outcome when positive, otherwise the
loss-amplified 0.2 times loss_sensitivity times the outcome, which also
covers outcome zero); every other connection entry and every other field
of the agent is unchanged. -/
theorem C7_update_trust_behavior (a : PsychologicalAgent) (o : String) (oc : ℚ) :
    (a.update_trust o oc).connections.lookup o
      = some (max 0 (min 1 (dictGet a.connections o a.default_trust +
          if oc > 0 then (1 : ℚ)/10 * oc
          else a.loss_sensitivity * oc * ((2 : ℚ)/10)))) ∧
    (∀ k, k ≠ o →
      (a.update_trust o oc).connections.lookup k = a.connections.lookup k) ∧
    (a.update_trust o oc).beliefs = a.beliefs ∧
    (a.update_trust o oc).information_history = a.information_history ∧
    (a.update_trust o oc).agent_id = a.agent_id ∧
    (a.update_trust o oc).base_trust_level = a.base_trust_level ∧
    (a.update_trust o oc).loss_sensitivity = a.loss_sensitivity ∧
    (a.update_trust o oc).confirmation_bias = a.confirmation_bias ∧
    (a.update_trust o oc).social_proof_weight = a.social_proof_weight ∧
    (a.update_trust o oc).emotional_state = a.emotional_state ∧
    (a.update_trust o oc).default_trust = a.default_trust := by
  refine ⟨?_, ?_, rfl, rfl, rfl, rfl, rfl, rfl, rfl, rfl, rfl⟩
  · simp only [PsychologicalAgent.update_trust, lookup_dictSet_self,
      update_trust_current]
  · intro k hk
    simp only [PsychologicalAgent.update_trust]
    rw [lookup_dictSet_ne _ _ _ _ hk]
    by_cases h : a.connections.lookup o = none
    · rw [if_pos h, lookup_dictSet_ne _ _ _ _ hk]
    · rw [if_neg h]

/-- Witness for C7: a fresh agent gains a clamped entry for "agent_X" and
entries under other keys are untouched. -/
theorem C7_update_trust_behavior_witness :
    ((PsychologicalAgent.create "F" ((3 : ℚ)/5) ((3 : ℚ)/2)).update_trust
        "agent_X" (-2)).connections.lookup "agent_X"
      = some (max 0 (min 1
          (dictGet (PsychologicalAgent.create "F" ((3 : ℚ)/5) ((3 : ℚ)/2)).connections
            "agent_X" (PsychologicalAgent.create "F" ((3 : ℚ)/5) ((3 : ℚ)/2)).default_trust +
            if (-2 : ℚ) > 0 then (1 : ℚ)/10 * (-2)
            else (PsychologicalAgent.create "F" ((3 : ℚ)/5) ((3 : ℚ)/2)).loss_sensitivity
              * (-2) * ((2 : ℚ)/10)))) ∧
    (∀ k, k ≠ "agent_X" →
      ((PsychologicalAgent.create "F" ((3 : ℚ)/5) ((3 : ℚ)/2)).update_trust
          "agent_X" (-2)).connections.lookup k
        = (PsychologicalAgent.create "F" ((3 : ℚ)/5) ((3 : ℚ)/2)).connections.lookup k) ∧
    ((PsychologicalAgent.create "F" ((3 : ℚ)/5) ((3 : ℚ)/2)).update_trust
        "agent_X" (-2)).beliefs
      = (PsychologicalAgent.create "F" ((3 : ℚ)/5) ((3 : ℚ)/2)).beliefs ∧
    ((PsychologicalAgent.create "F" ((3 : ℚ)/5) ((3 : ℚ)/2)).update_trust
        "agent_X" (-2)).information_history
      = (PsychologicalAgent.create "F" ((3 : ℚ)/5) ((3 : ℚ)/2)).information_history ∧
    ((PsychologicalAgent.create "F" ((3 : ℚ)/5) ((3 : ℚ)/2)).update_trust
        "agent_X" (-2)).agent_id
      = (PsychologicalAgent.create "F" ((3 : ℚ)/5) ((3 : ℚ)/2)).agent_id ∧
    ((PsychologicalAgent.create "F" ((3 : ℚ)/5) ((3 : ℚ)/2)).update_trust
        "agent_X" (-2)).base_trust_level
      = (PsychologicalAgent.create "F" ((3 : ℚ)/5) ((3 : ℚ)/2)).base_trust_level ∧
    ((PsychologicalAgent.create "F" ((3 : ℚ)/5) ((3 : ℚ)/2)).update_trust
        "agent_X" (-2)).loss_sensitivity
      = (PsychologicalAgent.create "F" ((3 : ℚ)/5) ((3 : ℚ)/2)).loss_sensitivity ∧
    ((PsychologicalAgent.create "F" ((3 : ℚ)/5) ((3 : ℚ)/2)).update_trust
        "agent_X" (-2)).confirmation_bias
      = (PsychologicalAgent.create "F" ((3 : ℚ)/5) ((3 : ℚ)/2)).confirmation_bias ∧
    ((PsychologicalAgent.create "F" ((3 : ℚ)/5) ((3 : ℚ)/2)).update_trust
        "agent_X" (-2)).social_proof_weight
      = (PsychologicalAgent.create "F" ((3 : ℚ)/5) ((3 : ℚ)/2)).social_proof_weight ∧
    ((PsychologicalAgent.create "F" ((3 : ℚ)/5) ((3 : ℚ)/2)).update_trust
        "agent_X" (-2)).emotional_state
      = (PsychologicalAgent.create "F" ((3 : ℚ)/5) ((3 : ℚ)/2)).emotional_state ∧
    ((PsychologicalAgent.create "F" ((3 : ℚ)/5) ((3 : ℚ)/2)).update_trust
        "agent_X" (-2)).default_trust
      = (PsychologicalAgent.create "F" ((3 : ℚ)/5) ((3 : ℚ)/2)).default_trust :=
  C7_update_trust_behavior (PsychologicalAgent.create "F" ((3 : ℚ)/5) ((3 : ℚ)/2))
    "agent_X" (-2)

/-- C9: when the current belief on the topic is zero (or absent) and the
source trust is zero, process_information always stores belief -0.09 and
returns 0.09, whatever the sign or size of the incoming value. -/
theorem C9_untrusted_source_negative_drift (a : PsychologicalAgent)
    (info : Information)
    (hb : dictGet a.beliefs info.topic 0 = 0)
    (hcb : a.confirmation_bias = (3 : ℚ)/10) :
    (a.process_information info 0).1.beliefs.lookup info.topic
      = some (-((9 : ℚ)/100)) ∧
    (a.process_information info 0).2 = (9 : ℚ)/100 := by
  have hbonus : confirmation_bonus a info = -((3 : ℚ)/10) := by
    simp only [confirmation_bonus, hb, hcb]
    norm_num
  have hfi : final_impact a info 0 = -((3 : ℚ)/10) := by
    simp only [final_impact, trusted_impact, mul_zero, hbonus]
    norm_num
  constructor
  · simp only [PsychologicalAgent.process_information, hfi, hb, lookup_dictSet_self]
    norm_num [max_def, min_def]
  · simp only [PsychologicalAgent.process_information, hfi, hb]
    norm_num [max_def, min_def]

/-- Witness for C9: a fresh agent processing fully good news with zero
source trust still drifts to belief -0.09. -/
theorem C9_untrusted_source_negative_drift_witness :
    ((PsychologicalAgent.create "G" ((3 : ℚ)/5) ((3 : ℚ)/2)).process_information
        ⟨"t", (1 : ℚ), 1, "s", 0⟩ 0).1.beliefs.lookup "t" = some (-((9 : ℚ)/100)) ∧
    ((PsychologicalAgent.create "G" ((3 : ℚ)/5) ((3 : ℚ)/2)).process_information
        ⟨"t", (1 : ℚ), 1, "s", 0⟩ 0).2 = (9 : ℚ)/100 :=
  C9_untrusted_source_negative_drift
    (PsychologicalAgent.create "G" ((3 : ℚ)/5) ((3 : ℚ)/2))
    ⟨"t", (1 : ℚ), 1, "s", 0⟩ rfl rfl

/-- C10: with no belief on the topic (absent entry or stored zero) the
sharing probability is zero, so decide_to_share is false for every
nonnegative draw. -/
theorem C10_no_belief_no_share (a : PsychologicalAgent) (info : Information)
    (draw : ℚ) (hb : dictGet a.beliefs info.topic 0 = 0) (hd : 0 ≤ draw) :
    (a.decide_to_share info draw).2 = false := by
  simp only [PsychologicalAgent.decide_to_share, share_probability, hb, abs_zero,
    zero_mul, zero_div, decide_eq_false_iff_not, not_lt]
  exact hd

/-- Every element tagged psychological counts as psychological. -/
lemma countP_isPsychological_map_psych (l : List PsychologicalAgent) :
    (l.map Agent.psychological).countP Agent.isPsychological = l.length := by
  induction l with
  | nil => rfl
  | cons x t ih => simp [List.countP_cons, Agent.isPsychological, ih]

/-- No element tagged rational counts as psychological. -/
lemma countP_isPsychological_map_rational (l : List RationalAgent) :
    (l.map Agent.rational).countP Agent.isPsychological = 0 := by
  induction l with
  | nil => rfl
  | cons x t ih => simp [List.countP_cons, Agent.isPsychological, ih]

/-- No element tagged psychological counts as rational. -/
lemma countP_isRational_map_psych (l : List PsychologicalAgent) :
    (l.map Agent.psychological).countP Agent.isRational = 0 := by
  induction l with
  | nil => rfl
  | cons x t ih => simp [List.countP_cons, Agent.isRational, ih]

/-- Every element tagged rational counts as rational. -/
lemma countP_isRational_map_rational (l : List RationalAgent) :
    (l.map Agent.rational).countP Agent.isRational = l.length := by
  induction l with
  | nil => rfl
  | cons x t ih => simp [List.countP_cons, Agent.isRational, ih]

/-- C8: for any sampled parameters and any shuffle (permutation) of the
concatenated population, create_mixed_population of a size and a ratio in
0..1 contains exactly floor(size * ratio) psychological agents and
size - floor(size * ratio) rational agents. -/
theorem C8_mixed_population_counts (size : ℕ) (r : ℚ) (params : ℕ → ℚ × ℚ)
    (hr0 : 0 ≤ r) (hr1 : r ≤ 1) (shuffled : List Agent)
    (hperm : shuffled.Perm (create_mixed_population size r params)) :
    shuffled.countP Agent.isPsychological = (⌊(size : ℚ) * r⌋).toNat ∧
    shuffled.countP Agent.isRational = size - (⌊(size : ℚ) * r⌋).toNat := by
  have hpy : pyInt ((size : ℚ) * r) = ⌊(size : ℚ) * r⌋ := by
    have hnn : ¬((size : ℚ) * r < 0) :=
      not_lt.mpr (mul_nonneg (by positivity) hr0)
    simp [pyInt, hnn]
  constructor
  · rw [hperm.countP_eq]
    simp only [create_mixed_population, hpy, List.countP_append,
      countP_isPsychological_map_psych, countP_isPsychological_map_rational]
    simp [create_psychological_population]
  · rw [hperm.countP_eq]
    simp only [create_mixed_population, hpy, List.countP_append,
      countP_isRational_map_psych, countP_isRational_map_rational]
    simp [create_rational_population]

/-- Constant sampling stream for the C8 witness. -/
def paramsC8 : ℕ → ℚ × ℚ := fun _ => ((3 : ℚ)/5, (3 : ℚ)/2)

/-- Witness for C8 at size 10, ratio one half, with the identity shuffle:
the counts are floor(10 * 1/2) = 5 and 10 - 5 = 5. -/
theorem C8_mixed_population_counts_witness :
    (create_mixed_population 10 ((1 : ℚ)/2) paramsC8).countP Agent.isPsychological
      = (⌊((10 : ℕ) : ℚ) * ((1 : ℚ)/2)⌋).toNat ∧
    (create_mixed_population 10 ((1 : ℚ)/2) paramsC8).countP Agent.isRational
      = 10 - (⌊((10 : ℕ) : ℚ) * ((1 : ℚ)/2)⌋).toNat :=
  C8_mixed_population_counts 10 ((1 : ℚ)/2) paramsC8 (by norm_num) (by norm_num)
    (create_mixed_population 10 ((1 : ℚ)/2) paramsC8) (List.Perm.refl _)

/-- Witness for C10: a fresh agent never shares at draw 0. -/
theorem C10_no_belief_no_share_witness :
    ((PsychologicalAgent.create "H" ((3 : ℚ)/5) ((3 : ℚ)/2)).decide_to_share
        ⟨"t", -(1 : ℚ), 1, "s", 0⟩ 0).2 = false :=
  C10_no_belief_no_share (PsychologicalAgent.create "H" ((3 : ℚ)/5) ((3 : ℚ)/2))
    ⟨"t", -(1 : ℚ), 1, "s", 0⟩ 0 rfl le_rfl
